import Mathlib

/-!
Verification development for a minimal user-account CRUD service
(FastAPI + SQLAlchemy + pydantic). The Python sources are shallowly
embedded: the database is an insertion-ordered list of records, the
session/commit machinery is made explicit, and the external bcrypt
primitive is modelled as an idealized collision-free salted digest.
-/

namespace UserService

/-- Models the external bcrypt library's salt generation
(`bcrypt.gensalt()` in `app/models/user.py`). The random source is made
explicit as a `nonce` parameter; each distinct call site passes a fresh
nonce. The produced salt has the bcrypt prefix shape and never contains
the digest separator character. -/
def bcrypt_gensalt (nonce : Nat) : String :=
  "$2b$12$" ++ toString nonce

/-- Models the external bcrypt library's hash output: a string value that
embeds the salt together with a digest of the plaintext. It is kept in
parsed form (salt and digest components) rather than as a raw
concatenated string; the Python column stores its string rendering. -/
structure BcryptHash where
  salt : String
  digest : String
deriving Repr, DecidableEq

/-- Models the keyed digest inside the external bcrypt primitive,
idealized as collision-free: for a fixed salt, distinct plaintexts give
distinct digests (real bcrypt is computationally collision-resistant;
the repository delegates to the vetted primitive). -/
def bcrypt_digest (plain salt : String) : String :=
  salt ++ ":" ++ plain

/-- Models `bcrypt.hashpw(plain, salt)`: digest of the plaintext under
the supplied salt, with the salt embedded in the output. -/
def bcrypt_hashpw (plain salt : String) : BcryptHash :=
  ⟨salt, bcrypt_digest plain salt⟩

/-- Models `bcrypt.checkpw(plain, hashed)`: recomputes the digest of
`plain` under the salt embedded in `hashed` and compares. -/
def bcrypt_checkpw (plain : String) (hashed : BcryptHash) : Bool :=
  bcrypt_digest plain hashed.salt == hashed.digest

/-- The persisted `User` row of `app/models/user.py`: identity, names,
email, credential fields (`salt`, `password` holding the bcrypt hash)
and the two timestamps (`DateTime` modelled as clock ticks, nullable in
the schema hence `Option`). -/
structure UserRecord where
  id : Nat
  first_name : String
  last_name : String
  email : String
  salt : String
  password : BcryptHash
  created_at : Option Nat
  updated_at : Option Nat
deriving Repr, DecidableEq

/-- Embeds `User.set_password`: generates a fresh salt for the record
and stores, in the same step, both the salt and the bcrypt hash of the
plaintext under that salt. -/
def set_password (u : UserRecord) (plain_password : String) (nonce : Nat) : UserRecord :=
  let salt := bcrypt_gensalt nonce
  { u with salt := salt, password := bcrypt_hashpw plain_password salt }

/-- Embeds `User.check_password`: compares the plaintext against the
stored hash via `bcrypt.checkpw`. -/
def check_password (u : UserRecord) (plain_password : String) : Bool :=
  bcrypt_checkpw plain_password u.password

/-- The outbound `UserRead` projection of `app/schemas/user.py`: exactly
identity, first/last name, email and the two timestamps. The credential
fields (`salt`, `password`) are not part of this shape. -/
structure UserRead where
  id : Nat
  first_name : String
  last_name : String
  email : String
  created_at : Option Nat
  updated_at : Option Nat
deriving Repr, DecidableEq

/-- Projection of a stored record through the `UserRead` schema
(`response_model=UserRead` with `from_attributes`). -/
def userRead (u : UserRecord) : UserRead :=
  { id := u.id
    first_name := u.first_name
    last_name := u.last_name
    email := u.email
    created_at := u.created_at
    updated_at := u.updated_at }

/-- The relational store: the `users` table as the list of rows in
insertion order, the next primary key to assign, and the database clock
used for `func.now()` timestamps. -/
structure Db where
  users : List UserRecord
  nextId : Nat
  now : Nat
deriving Repr, DecidableEq

/-- Embeds `select(User).where(User.id == user_id)` followed by
`scalar_one_or_none()`. -/
def findUser (db : Db) (user_id : Nat) : Option UserRecord :=
  db.users.find? (fun v => v.id == user_id)

/-- True when some stored row already carries this email (the unique
index on the `email` column). -/
def emailTaken (db : Db) (email : String) : Bool :=
  db.users.any (fun v => v.email == email)

/-- A raised `fastapi.HTTPException` with its status code and detail. -/
structure HTTPException where
  statusCode : Nat
  detail : String
deriving Repr, DecidableEq

/-- Storage-failure injection point for a commit: the commit either
succeeds (beyond any uniqueness violation derived from the data) or
raises a non-integrity `SQLAlchemyError` with the given message. -/
inductive StorageFault where
  | noFault
  | otherError (msg : String)
deriving Repr, DecidableEq

/-- A validated `UserCreate` payload of `app/schemas/user.py` (all four
fields required; the create handler receives it already validated). -/
structure UserCreate where
  first_name : String
  last_name : String
  email : String
  password : String
deriving Repr, DecidableEq

/-- A `UserUpdate` instance as the update handler receives it after
pydantic validation: each field holds either a string or Python `None`. -/
structure UserUpdate where
  first_name : Option String
  last_name : Option String
  email : Option String
  password : Option String
deriving Repr, DecidableEq

/-- Python truthiness of an optional string, as used by the update
handler's `if user_update.email:` guards: `None` and the empty string
are falsy. -/
def pyTruthy : Option String → Bool
  | none => false
  | some s => s != ""

/-- Embeds `create_user` (POST /users/) of `app/routers/user.py`:
builds the record from the payload, derives the credential fields via
`set_password`, then commits. A uniqueness violation on `email` raises
`IntegrityError`, mapped to 400; any other `SQLAlchemyError` is mapped
to 500; on success the new row (timestamps filled by the database) is
returned as 201 with its `UserRead` projection. The pair's second
component is the resulting stored state. -/
def create_user (uc : UserCreate) (db : Db) (nonce : Nat) (fault : StorageFault) :
    Except HTTPException (Nat × UserRead) × Db :=
  let user := set_password
    { id := db.nextId, first_name := uc.first_name, last_name := uc.last_name,
      email := uc.email, salt := "", password := ⟨"", ""⟩,
      created_at := none, updated_at := none } uc.password nonce
  if emailTaken db uc.email then
    (.error ⟨400, "User with this email already exists"⟩, db)
  else
    match fault with
    | .otherError msg => (.error ⟨500, "Unable to create user: " ++ msg⟩, db)
    | .noFault =>
      let stored := { user with created_at := some db.now, updated_at := some db.now }
      (.ok (201, userRead stored),
       { db with users := db.users ++ [stored], nextId := db.nextId + 1 })

/-- Embeds `get_users` (GET /users/): `select(User)` over the whole
table (returned in storage order, i.e. insertion order), 404 when the
result set is empty, otherwise 200 with the `UserRead` projections. -/
def get_users (db : Db) : Except HTTPException (Nat × List UserRead) :=
  if db.users.isEmpty then
    .error ⟨404, "Users not found"⟩
  else
    .ok (200, db.users.map userRead)

/-- Embeds `get_user` (GET /users/id): fetch by identity, 404 when
absent, otherwise 200 with the `UserRead` projection. -/
def get_user (user_id : Nat) (db : Db) : Except HTTPException (Nat × UserRead) :=
  match findUser db user_id with
  | none => .error ⟨404, "User not found"⟩
  | some user => .ok (200, userRead user)

/-- The field-application block of the update handler: each of the four
`if user_update.field:` guards applies the field only when it is truthy;
a truthy password goes through `set_password`. -/
def applyUpdate (uu : UserUpdate) (user : UserRecord) (nonce : Nat) : UserRecord :=
  let u1 := if pyTruthy uu.email then { user with email := uu.email.getD user.email } else user
  let u2 := if pyTruthy uu.first_name then
      { u1 with first_name := uu.first_name.getD u1.first_name } else u1
  let u3 := if pyTruthy uu.last_name then
      { u2 with last_name := uu.last_name.getD u2.last_name } else u2
  if pyTruthy uu.password then set_password u3 (uu.password.getD "") nonce else u3

/-- Replaces the row with the given id in place (the ORM mutates the
fetched row; commit persists it in its position). -/
def replaceById (users : List UserRecord) (u : UserRecord) : List UserRecord :=
  users.map (fun v => if v.id == u.id then u else v)

/-- Embeds `update_user` (PUT /users/id): fetch by identity (404 when
absent), apply the truthy payload fields, commit — a uniqueness
violation against another row's email raises `IntegrityError` mapped to
400, any other `SQLAlchemyError` maps to 500; on success `updated_at`
is refreshed (`onupdate=func.now()`) and the updated row is returned as
200 with its `UserRead` projection. -/
def update_user (user_id : Nat) (uu : UserUpdate) (db : Db) (nonce : Nat)
    (fault : StorageFault) : Except HTTPException (Nat × UserRead) × Db :=
  match findUser db user_id with
  | none => (.error ⟨404, "User not found"⟩, db)
  | some user =>
    let updated := applyUpdate uu user nonce
    if db.users.any (fun v => v.id != user.id && v.email == updated.email) then
      (.error ⟨400, "User with this email already exists"⟩, db)
    else
      match fault with
      | .otherError msg => (.error ⟨500, "Unable to update user: " ++ msg⟩, db)
      | .noFault =>
        let stored := { updated with updated_at := some db.now }
        (.ok (200, userRead stored), { db with users := replaceById db.users stored })

/-- Embeds `delete_user` (DELETE /users/id): fetch by identity (404
when absent), delete and commit — a `SQLAlchemyError` maps to 500; on
success the row is removed and 204 is returned with no body. -/
def delete_user (user_id : Nat) (db : Db) (fault : StorageFault) :
    Except HTTPException Nat × Db :=
  match findUser db user_id with
  | none => (.error ⟨404, "User not found"⟩, db)
  | some user =>
    match fault with
    | .otherError msg => (.error ⟨500, "Unable to delete user: " ++ msg⟩, db)
    | .noFault => (.ok 204, { db with users := db.users.filter (fun v => v.id != user.id) })

/-- The two sessions `get_db` can touch: the fresh pooled scoped
session it acquires at entry, and a test-override session installed in
the context variable. -/
inductive SessionId where
  | pooled
  | override
deriving Repr, DecidableEq

/-- Whether the request body consuming the yielded session completed
cleanly or raised. -/
inductive BodyOutcome where
  | success
  | failure
deriving Repr, DecidableEq

/-- Observable effects of one pass through the `get_db` dependency
generator: which session was yielded to the handler, and which
rollback/close calls were issued on each session. -/
structure GetDbTrace where
  yielded : SessionId
  pooledRolledBack : Bool
  pooledClosed : Bool
  overrideRolledBack : Bool
  overrideClosed : Bool
deriving Repr, DecidableEq

/-- Embeds `get_db` of `app/database/database.py`: a pooled session is
acquired unconditionally; the test-override session is yielded instead
of it when one is installed; `except Exception` rolls back `session`
(the pooled one) when the body raises; `finally` closes `session` (the
pooled one) on every path. The override session itself is never rolled
back or closed here. -/
def get_db (hasTestSession : Bool) (outcome : BodyOutcome) : GetDbTrace :=
  { yielded := if hasTestSession then .override else .pooled
    pooledRolledBack := outcome == .failure
    pooledClosed := true
    overrideRolledBack := false
    overrideClosed := false }

/-- The value held by `DatabaseManager.engine`: `__init__` stores the
`AsyncEngine` class object itself; `init_db` replaces it with a real
engine; Python `None` is representable but never stored by this code. -/
inductive EngineAttr where
  | classObject
  | engine (id : Nat)
  | nullEngine
deriving Repr, DecidableEq

/-- What a call to `DatabaseManager.close` does. Awaiting `dispose()`
on the `AsyncEngine` class object (not an instance) raises a
`TypeError`; the `else` branch raises the documented
engine-not-initialized exception. -/
inductive CloseOutcome where
  | disposedEngine
  | typeErrorOnClassDispose
  | notInitializedError
deriving Repr, DecidableEq

/-- The `self.engine is not None` test in `DatabaseManager.close`. -/
def engineIsNotNone : EngineAttr → Bool
  | .nullEngine => false
  | .classObject => true
  | .engine _ => true

/-- The `await self.engine.dispose()` call: on a real engine it
disposes the pool; on the class object it raises `TypeError` (unbound
method, no instance). -/
def disposeEngine : EngineAttr → CloseOutcome
  | .classObject => .typeErrorOnClassDispose
  | .engine _ => .disposedEngine
  | .nullEngine => .disposedEngine

/-- Embeds `DatabaseManager.close`: dispose when the engine attribute
is not `None`, otherwise raise the engine-not-initialized exception. -/
def DatabaseManager.close (e : EngineAttr) : CloseOutcome :=
  if engineIsNotNone e then disposeEngine e else .notInitializedError

/-- The engine attribute of a freshly constructed manager
(`self.engine = AsyncEngine` in `DatabaseManager.__init__`), i.e. the
Uninitialized state. -/
def uninitializedEngine : EngineAttr := .classObject

/-- A sample stored record used to instantiate theorems. -/
def sampleUser : UserRecord :=
  { id := 1, first_name := "Ada", last_name := "Lovelace", email := "ada@example.com",
    salt := "$2b$12$0", password := bcrypt_hashpw "Passw0rd" "$2b$12$0",
    created_at := some 0, updated_at := some 0 }

/-- A store holding only `sampleUser`. -/
def sampleDb : Db := ⟨[sampleUser], 2, 1⟩

/-- The empty store. -/
def emptyDb : Db := ⟨[], 1, 0⟩

/-- A sample validated create payload. -/
def sampleCreate : UserCreate := ⟨"Ada", "Lovelace", "ada@example.com", "Passw0rd"⟩

/-- Python exceptions that can arise inside pydantic field validation.
Pydantic collects `ValueError` into the aggregated validation error;
any other exception propagates uncaught. -/
inductive PyExc where
  | valueError (msg : String)
  | attributeError (msg : String)
  | typeError (msg : String)
deriving Repr, DecidableEq

/-- True exactly for the `ValueError` kind. -/
def PyExc.isValueError : PyExc → Bool
  | .valueError _ => true
  | _ => false

/-- A JSON field of an inbound Update payload: outer `none` means the
key is absent from the payload, `some none` means the key is present
with an explicit `null`, `some (some s)` means a string value. -/
abbrev JsonField := Option (Option String)

/-- The raw JSON body of a PUT /users/id request, before validation. -/
structure UpdatePayloadJson where
  first_name : JsonField
  last_name : JsonField
  email : JsonField
  password : JsonField
deriving Repr, DecidableEq

/-- Python `str.isalpha`: nonempty and every character alphabetic
(ASCII approximation of the Unicode classes). -/
def pyIsAlpha (s : String) : Bool :=
  !s.isEmpty && s.data.all Char.isAlpha

/-- Python `str.isdigit` over one character (ASCII approximation). -/
def pyIsDigit (c : Char) : Bool := c.isDigit

/-- Python `str.isupper` over one character (ASCII approximation). -/
def pyIsUpper (c : Char) : Bool := c.isUpper

/-- Models the external `EmailStr` parse: one `@` separating a
nonempty local part from a nonempty domain containing a dot. -/
def isValidEmail (s : String) : Bool :=
  let cs := s.data
  let local_part := cs.takeWhile (fun c => c != '@')
  match cs.dropWhile (fun c => c != '@') with
  | '@' :: domain =>
    !local_part.isEmpty && !domain.isEmpty &&
      domain.any (fun c => c == '.') && domain.all (fun c => c != '@')
  | _ => false

/-- Outcome of validating one field of a `UserUpdate` payload:
a validated value, a `ValueError`-class violation collected by pydantic
under the field's name (missing key, length constraint, or a
`ValueError` raised by the field validator), or a non-`ValueError`
exception escaping the validator. -/
inductive FieldOutcome where
  | ok (v : Option String)
  | invalid (field : String)
  | raised (exc : PyExc)
deriving Repr, DecidableEq

/-- The collected-violation field name, when this outcome is one. -/
def FieldOutcome.invalidName : FieldOutcome → Option String
  | .invalid f => some f
  | _ => none

/-- Validation of `first_name` / `last_name` on `UserUpdate`: the field
is declared `Optional[str] = Field(min_length=2, max_length=128)` with
no default, so a missing key is a collected violation; an explicit
`null` passes the declared type check and reaches `validate_name`,
where `None.isalpha()` raises `AttributeError`; a string is checked
against the length bounds and then `validate_name` raises `ValueError`
unless it is alphabetic. -/
def validateUpdateName (field : String) : JsonField → FieldOutcome
  | none => .invalid field
  | some none => .raised (.attributeError "NoneType has no attribute isalpha")
  | some (some s) =>
    if s.length < 2 || 128 < s.length then .invalid field
    else if !pyIsAlpha s then .invalid field
    else .ok (some s)

/-- Validation of `email` on `UserUpdate`: declared `Optional[EmailStr]`
with no default and no field validator, so a missing key is a collected
violation, an explicit `null` validates to `None`, and a string must
parse as an email address. -/
def validateUpdateEmail : JsonField → FieldOutcome
  | none => .invalid "email"
  | some none => .ok none
  | some (some s) => if isValidEmail s then .ok (some s) else .invalid "email"

/-- Validation of `password` on `UserUpdate`: declared
`Optional[str] = Field(min_length=8, max_length=128)` with no default,
so a missing key is a collected violation; an explicit `null` passes
the declared type check and reaches `validate_password`, where
iterating over `None` raises `TypeError`; a string is checked against
the length bounds and then `validate_password` raises `ValueError`
unless it contains a digit and an uppercase letter. -/
def validateUpdatePassword : JsonField → FieldOutcome
  | none => .invalid "password"
  | some none => .raised (.typeError "NoneType is not iterable")
  | some (some s) =>
    if s.length < 8 || 128 < s.length then .invalid "password"
    else if !s.data.any pyIsDigit then .invalid "password"
    else if !s.data.any pyIsUpper then .invalid "password"
    else .ok (some s)

/-- Result of validating a whole Update payload: an aggregated 422
validation error naming every violated field, an uncaught
non-`ValueError` exception escaping the validation, or the validated
`UserUpdate` value. -/
inductive ValidationResult (α : Type) where
  | validationError (fields : List String)
  | uncaught (exc : PyExc)
  | ok (value : α)
deriving Repr, DecidableEq

/-- Pydantic validation of the `UserUpdate` model over a raw JSON
payload: fields are processed in declaration order; the first
non-`ValueError` exception raised by a validator propagates uncaught;
otherwise `ValueError`-class violations are aggregated into one
validation error, and when none occur the validated value is built. -/
def validateUserUpdate (p : UpdatePayloadJson) : ValidationResult UserUpdate :=
  match validateUpdateName "first_name" p.first_name,
        validateUpdateName "last_name" p.last_name,
        validateUpdateEmail p.email,
        validateUpdatePassword p.password with
  | .raised e, _, _, _ => .uncaught e
  | _, .raised e, _, _ => .uncaught e
  | _, _, .raised e, _ => .uncaught e
  | _, _, _, .raised e => .uncaught e
  | .ok v1, .ok v2, .ok v3, .ok v4 => .ok ⟨v1, v2, v3, v4⟩
  | o1, o2, o3, o4 =>
    .validationError ([o1, o2, o3, o4].filterMap FieldOutcome.invalidName)

/-- C2 counterexample: with a test override active and the request body
raising, the unit of work in use is the override, yet the override is
not rolled back (and on clean completion it is not closed); `get_db`
rolls back and closes the separately acquired pooled session instead. -/
theorem c2_override_not_released_counterexample :
    (get_db true .failure).yielded = .override ∧
    (get_db true .failure).overrideRolledBack = false ∧
    (get_db true .failure).pooledRolledBack = true ∧
    (get_db true .success).yielded = .override ∧
    (get_db true .success).overrideClosed = false ∧
    (get_db true .success).pooledClosed = true := by
  decide

/-- C2 amended: `get_db` always acquires a pooled session; it yields the
override when one is active, otherwise the pooled session; on a failure
it rolls back the pooled session (exactly then), it always closes the
pooled session, and it never rolls back or closes the override. -/
theorem c2_get_db_releases_pooled_session (hasTestSession : Bool) (outcome : BodyOutcome) :
    ((get_db hasTestSession outcome).yielded =
      if hasTestSession then SessionId.override else SessionId.pooled) ∧
    ((get_db hasTestSession outcome).pooledRolledBack = true ↔ outcome = .failure) ∧
    (get_db hasTestSession outcome).pooledClosed = true ∧
    (get_db hasTestSession outcome).overrideRolledBack = false ∧
    (get_db hasTestSession outcome).overrideClosed = false := by
  cases hasTestSession <;> cases outcome <;> simp [get_db]

/-- C3: the list handler reads the whole table in storage (insertion)
order; an empty result set raises 404, otherwise 200 is returned with
the `UserRead` projections of all rows in order. -/
theorem c3_list_users (db : Db) :
    (db.users = [] → get_users db = .error ⟨404, "Users not found"⟩) ∧
    (db.users ≠ [] → get_users db = .ok (200, db.users.map userRead)) := by
  constructor
  · intro h
    simp [get_users, h]
  · intro h
    simp [get_users, h]

/-- C3 witness: the empty store yields 404 and the one-row store yields
200 with the single projection. -/
theorem c3_list_users_witness :
    get_users emptyDb = .error ⟨404, "Users not found"⟩ ∧
    get_users sampleDb = .ok (200, [userRead sampleUser]) := by
  refine ⟨(c3_list_users emptyDb).1 rfl, ?_⟩
  have h := (c3_list_users sampleDb).2 (by simp [sampleDb])
  simpa [sampleDb] using h

/-- C5: evaluating `DatabaseManager.close` in the Uninitialized state
(the engine attribute as left by `__init__`, namely the `AsyncEngine`
class object): the `is not None` test passes, so the dispose branch is
taken (failing with `TypeError` on the class object) and the documented
engine-not-initialized exception is never raised. -/
theorem c5_close_uninitialized_takes_dispose_branch :
    engineIsNotNone uninitializedEngine = true ∧
    DatabaseManager.close uninitializedEngine = .typeErrorOnClassDispose ∧
    DatabaseManager.close uninitializedEngine ≠ .notInitializedError := by
  decide

/-- C6: when the identity resolves to no record, the get, update and
delete handlers all raise 404 with the same detail, and update and
delete return the store unchanged (get never writes). -/
theorem c6_not_found_symmetry (db : Db) (uid : Nat) (uu : UserUpdate) (nonce : Nat)
    (fault : StorageFault) (h : findUser db uid = none) :
    get_user uid db = .error ⟨404, "User not found"⟩ ∧
    update_user uid uu db nonce fault = (.error ⟨404, "User not found"⟩, db) ∧
    delete_user uid db fault = (.error ⟨404, "User not found"⟩, db) := by
  refine ⟨?_, ?_, ?_⟩ <;> simp [get_user, update_user, delete_user, h]

/-- C6 witness: identity 7 resolves to no record in the empty store;
all three handlers 404 and the store is unchanged. -/
theorem c6_not_found_symmetry_witness :
    findUser emptyDb 7 = none ∧
    get_user 7 emptyDb = .error ⟨404, "User not found"⟩ ∧
    update_user 7 ⟨none, none, none, none⟩ emptyDb 0 .noFault
      = (.error ⟨404, "User not found"⟩, emptyDb) ∧
    delete_user 7 emptyDb .noFault = (.error ⟨404, "User not found"⟩, emptyDb) := by
  have h : findUser emptyDb 7 = none := rfl
  have hm := c6_not_found_symmetry emptyDb 7 ⟨none, none, none, none⟩ 0 .noFault h
  exact ⟨h, hm.1, hm.2.1, hm.2.2⟩

/-- C4: the create handler maps a uniqueness violation on the email to
400 with the conflict detail, any other storage failure to 500, and on
success returns 201 with the `UserRead` projection of a new row whose
credential fields were derived from the supplied plaintext password
with a freshly generated salt, the row being appended to the store. -/
theorem c4_create_user_error_mapping (uc : UserCreate) (db : Db) (nonce : Nat) :
    (emailTaken db uc.email = true →
      ∀ fault, create_user uc db nonce fault
        = (.error ⟨400, "User with this email already exists"⟩, db)) ∧
    (emailTaken db uc.email = false →
      ∀ msg, create_user uc db nonce (.otherError msg)
        = (.error ⟨500, "Unable to create user: " ++ msg⟩, db)) ∧
    (emailTaken db uc.email = false →
      ∃ stored db2, create_user uc db nonce .noFault = (.ok (201, userRead stored), db2) ∧
        stored.salt = bcrypt_gensalt nonce ∧
        stored.password = bcrypt_hashpw uc.password (bcrypt_gensalt nonce) ∧
        stored.email = uc.email ∧
        db2.users = db.users ++ [stored]) := by
  refine ⟨?_, ?_, ?_⟩
  · intro h fault
    cases fault <;> simp [create_user, h]
  · intro h msg
    simp [create_user, h]
  · intro h
    refine ⟨{ id := db.nextId, first_name := uc.first_name, last_name := uc.last_name,
              email := uc.email, salt := bcrypt_gensalt nonce,
              password := bcrypt_hashpw uc.password (bcrypt_gensalt nonce),
              created_at := some db.now, updated_at := some db.now },
            { db with
              users := db.users ++
                [{ id := db.nextId, first_name := uc.first_name, last_name := uc.last_name,
                   email := uc.email, salt := bcrypt_gensalt nonce,
                   password := bcrypt_hashpw uc.password (bcrypt_gensalt nonce),
                   created_at := some db.now, updated_at := some db.now }],
              nextId := db.nextId + 1 }, ?_, rfl, rfl, rfl, rfl⟩
    simp [create_user, h, set_password]

/-- C4 witness: on the empty store the sample email is free, creation
succeeds, and on the one-row store the same email conflicts. -/
theorem c4_create_user_error_mapping_witness :
    emailTaken sampleDb "ada@example.com" = true ∧
    create_user sampleCreate sampleDb 0 .noFault
      = (.error ⟨400, "User with this email already exists"⟩, sampleDb) ∧
    emailTaken emptyDb "ada@example.com" = false ∧
    create_user sampleCreate emptyDb 0 (.otherError "disk full")
      = (.error ⟨500, "Unable to create user: disk full"⟩, emptyDb) ∧
    ∃ stored db2, create_user sampleCreate emptyDb 0 .noFault
        = (.ok (201, userRead stored), db2) ∧
      stored.salt = bcrypt_gensalt 0 ∧
      stored.password = bcrypt_hashpw "Passw0rd" (bcrypt_gensalt 0) ∧
      stored.email = "ada@example.com" ∧
      db2.users = emptyDb.users ++ [stored] := by
  have ht : emailTaken sampleDb "ada@example.com" = true := by decide
  have hf : emailTaken emptyDb "ada@example.com" = false := by decide
  refine ⟨ht, (c4_create_user_error_mapping sampleCreate sampleDb 0).1 ht .noFault, hf,
    (c4_create_user_error_mapping sampleCreate emptyDb 0).2.1 hf "disk full",
    (c4_create_user_error_mapping sampleCreate emptyDb 0).2.2 hf⟩

/-- C7: `set_password` stores, in one step, a freshly generated salt
together with the hash of the plaintext under that salt; the update
handler's field application either changes both credential fields via
`set_password` (truthy payload password) or leaves both untouched, and
the create handler writes both fields of the new row the same way. -/
theorem c7_salt_and_hash_updated_together (u : UserRecord) (p : String) (nonce : Nat)
    (uu : UserUpdate) (user : UserRecord) :
    ((set_password u p nonce).salt = bcrypt_gensalt nonce ∧
     (set_password u p nonce).password = bcrypt_hashpw p (bcrypt_gensalt nonce)) ∧
    (pyTruthy uu.password = true →
      (applyUpdate uu user nonce).salt = bcrypt_gensalt nonce ∧
      (applyUpdate uu user nonce).password
        = bcrypt_hashpw (uu.password.getD "") (bcrypt_gensalt nonce)) ∧
    (pyTruthy uu.password = false →
      (applyUpdate uu user nonce).salt = user.salt ∧
      (applyUpdate uu user nonce).password = user.password) := by
  refine ⟨⟨rfl, rfl⟩, ?_, ?_⟩ <;>
    intro h <;>
    cases hE : pyTruthy uu.email <;>
    cases hF : pyTruthy uu.first_name <;>
    cases hL : pyTruthy uu.last_name <;>
    simp [applyUpdate, set_password, h, hE, hF, hL]

/-- C7 witness: a payload carrying a new password regenerates both
credential fields together; a payload without one leaves both as they
were on `sampleUser`. -/
theorem c7_salt_and_hash_updated_together_witness :
    pyTruthy (some "NewPassw0rd") = true ∧
    (applyUpdate ⟨none, none, none, some "NewPassw0rd"⟩ sampleUser 5).salt
      = bcrypt_gensalt 5 ∧
    (applyUpdate ⟨none, none, none, some "NewPassw0rd"⟩ sampleUser 5).password
      = bcrypt_hashpw "NewPassw0rd" (bcrypt_gensalt 5) ∧
    pyTruthy (none : Option String) = false ∧
    (applyUpdate ⟨some "Grace", none, none, none⟩ sampleUser 5).salt = sampleUser.salt ∧
    (applyUpdate ⟨some "Grace", none, none, none⟩ sampleUser 5).password
      = sampleUser.password := by
  have h1 := (c7_salt_and_hash_updated_together sampleUser "x" 5
    ⟨none, none, none, some "NewPassw0rd"⟩ sampleUser).2.1 (by decide)
  have h2 := (c7_salt_and_hash_updated_together sampleUser "x" 5
    ⟨some "Grace", none, none, none⟩ sampleUser).2.2 (by decide)
  exact ⟨by decide, by simpa using h1.1, by simpa using h1.2, rfl, h2.1, h2.2⟩

/-- The update handler's field application never touches the identity
column. -/
theorem applyUpdate_id (uu : UserUpdate) (user : UserRecord) (nonce : Nat) :
    (applyUpdate uu user nonce).id = user.id := by
  cases hE : pyTruthy uu.email <;>
  cases hF : pyTruthy uu.first_name <;>
  cases hL : pyTruthy uu.last_name <;>
  cases hP : pyTruthy uu.password <;>
  simp [applyUpdate, set_password, hE, hF, hL, hP]

/-- C8: the `UserRead` projection is unchanged by any value of the salt
and password-hash columns (they are not part of the shape), and every
success body any handler produces is a `UserRead` projection of a
stored row: get by id and list project stored rows, and create and
update project a row of the resulting store. -/
theorem c8_outbound_is_credential_free_projection :
    (∀ (r : UserRecord) (s : String) (h : BcryptHash),
      userRead { r with salt := s, password := h } = userRead r) ∧
    (∀ uid db c b, get_user uid db = .ok (c, b) → ∃ u ∈ db.users, b = userRead u) ∧
    (∀ db c bs, get_users db = .ok (c, bs) → bs = db.users.map userRead) ∧
    (∀ uc db nonce fault c b db2, create_user uc db nonce fault = (.ok (c, b), db2) →
      ∃ u ∈ db2.users, b = userRead u) ∧
    (∀ uid uu db nonce fault c b db2, update_user uid uu db nonce fault = (.ok (c, b), db2) →
      ∃ u ∈ db2.users, b = userRead u) := by
  refine ⟨fun r s h => rfl, ?_, ?_, ?_, ?_⟩
  · intro uid db c b heq
    cases hf : findUser db uid with
    | none => simp [get_user, hf] at heq
    | some u =>
      refine ⟨u, List.mem_of_find?_eq_some hf, ?_⟩
      simp [get_user, hf] at heq
      exact heq.2.symm
  · intro db c bs heq
    by_cases hf : db.users.isEmpty <;> simp [get_users, hf] at heq
    exact heq.2.symm
  · intro uc db nonce fault c b db2 heq
    by_cases hf : emailTaken db uc.email = true
    · simp [create_user, hf] at heq
    · cases fault with
      | otherError msg => simp [create_user, hf] at heq
      | noFault =>
        simp only [create_user, hf, Bool.false_eq_true, if_false] at heq
        simp only [Prod.mk.injEq, Except.ok.injEq] at heq
        obtain ⟨⟨hc, hb⟩, hdb⟩ := heq
        refine ⟨_, ?_, hb.symm⟩
        rw [← hdb]
        simp
  · intro uid uu db nonce fault c b db2 heq
    cases hf : findUser db uid with
    | none => simp [update_user, hf] at heq
    | some u =>
      simp only [update_user, hf] at heq
      by_cases hdup : db.users.any (fun v => v.id != u.id && v.email ==
          (applyUpdate uu u nonce).email)
      · simp [hdup] at heq
      · simp only [hdup, Bool.false_eq_true, if_false] at heq
        cases fault with
        | otherError msg => simp at heq
        | noFault =>
          simp only [Prod.mk.injEq, Except.ok.injEq] at heq
          obtain ⟨⟨hc, hb⟩, hdb⟩ := heq
          refine ⟨_, ?_, hb.symm⟩
          rw [← hdb]
          simp only [replaceById]
          have hu : u ∈ db.users := List.mem_of_find?_eq_some hf
          refine List.mem_map.mpr ⟨u, hu, ?_⟩
          have hid : (u.id == ({ applyUpdate uu u nonce with updated_at := some db.now }
              : UserRecord).id) = true := by
            simp [applyUpdate_id]
          simp [hid]

/-- C8 witness: the projection of `sampleUser` ignores replaced
credential fields, and the get and list handlers on the one-row store
produce projections of that row. -/
theorem c8_outbound_is_credential_free_projection_witness :
    userRead { sampleUser with salt := "other", password := ⟨"a", "b"⟩ }
      = userRead sampleUser ∧
    get_user 1 sampleDb = .ok (200, userRead sampleUser) ∧
    (∃ u ∈ sampleDb.users, userRead sampleUser = userRead u) ∧
    get_users sampleDb = .ok (200, [userRead sampleUser]) ∧
    [userRead sampleUser] = sampleDb.users.map userRead := by
  have hg : get_user 1 sampleDb = .ok (200, userRead sampleUser) := rfl
  have hl : get_users sampleDb = .ok (200, [userRead sampleUser]) := rfl
  refine ⟨c8_outbound_is_credential_free_projection.1 sampleUser "other" ⟨"a", "b"⟩,
    hg, c8_outbound_is_credential_free_projection.2.1 1 sampleDb 200 (userRead sampleUser) hg,
    hl, c8_outbound_is_credential_free_projection.2.2.1 sampleDb 200 [userRead sampleUser] hl⟩

/-- Left cancellation of string concatenation. -/
theorem string_append_cancel_left (a b c : String) (h : a ++ b = a ++ c) : b = c := by
  have hd : a.data ++ b.data = a.data ++ c.data := by
    have h1 := congrArg String.data h
    simpa using h1
  have h2 := List.append_cancel_left hd
  cases b
  cases c
  exact congrArg String.mk h2

/-- C9: after `set_password` with plaintext `p`, `check_password`
accepts exactly `p`: it returns true on `p` and false on every other
string (the external bcrypt digest being idealized as collision-free). -/
theorem c9_check_password_accepts_exactly_the_set_password (u : UserRecord)
    (p q : String) (nonce : Nat) (hq : q ≠ p) :
    check_password (set_password u p nonce) p = true ∧
    check_password (set_password u p nonce) q = false := by
  constructor
  · simp [check_password, set_password, bcrypt_checkpw, bcrypt_hashpw]
  · simp only [check_password, set_password, bcrypt_checkpw, bcrypt_hashpw]
    refine beq_eq_false_iff_ne.mpr ?_
    intro hcontra
    exact hq (string_append_cancel_left _ _ _ hcontra)

/-- C9 witness: with the plaintext Passw0rd set, verification accepts
Passw0rd and rejects the empty string and a one-character variation. -/
theorem c9_check_password_witness :
    ("" : String) ≠ "Passw0rd" ∧
    ("Passw0rc" : String) ≠ "Passw0rd" ∧
    check_password (set_password sampleUser "Passw0rd" 0) "Passw0rd" = true ∧
    check_password (set_password sampleUser "Passw0rd" 0) "" = false ∧
    check_password (set_password sampleUser "Passw0rd" 0) "Passw0rc" = false := by
  have h1 : ("" : String) ≠ "Passw0rd" := by decide
  have h2 : ("Passw0rc" : String) ≠ "Passw0rd" := by decide
  exact ⟨h1, h2,
    (c9_check_password_accepts_exactly_the_set_password sampleUser "Passw0rd" "" 0 h1).1,
    (c9_check_password_accepts_exactly_the_set_password sampleUser "Passw0rd" "" 0 h1).2,
    (c9_check_password_accepts_exactly_the_set_password sampleUser "Passw0rd" "Passw0rc" 0 h2).2⟩

/-- A name field validator can only escape with a non-`ValueError`
exception (the `AttributeError` on `None`); its `ValueError` cases are
collected, never raised out. -/
theorem validateUpdateName_raised_not_valueError (field : String) (x : JsonField)
    (e : PyExc) (h : validateUpdateName field x = .raised e) : e.isValueError = false := by
  match x with
  | none => simp [validateUpdateName] at h
  | some none =>
    simp [validateUpdateName] at h
    simp [← h, PyExc.isValueError]
  | some (some s) =>
    simp only [validateUpdateName] at h
    split at h <;> simp_all
    split at h <;> simp_all

/-- The password field validator can only escape with a
non-`ValueError` exception (the `TypeError` on iterating `None`). -/
theorem validateUpdatePassword_raised_not_valueError (x : JsonField) (e : PyExc)
    (h : validateUpdatePassword x = .raised e) : e.isValueError = false := by
  match x with
  | none => simp [validateUpdatePassword] at h
  | some none =>
    simp [validateUpdatePassword] at h
    simp [← h, PyExc.isValueError]
  | some (some s) =>
    simp only [validateUpdatePassword] at h
    split at h <;> simp_all
    split at h <;> simp_all
    split at h <;> simp_all

/-- The email field has no field validator, so its validation never
raises. -/
theorem validateUpdateEmail_not_raised (x : JsonField) (e : PyExc) :
    validateUpdateEmail x ≠ .raised e := by
  match x with
  | none => simp [validateUpdateEmail]
  | some none => simp [validateUpdateEmail]
  | some (some s) =>
    simp only [validateUpdateEmail]
    split <;> simp

/-- A payload validates to a `UserUpdate` value exactly when every
field validates to the corresponding component. -/
theorem validateUserUpdate_ok_fields (p : UpdatePayloadJson) (v : UserUpdate)
    (h : validateUserUpdate p = .ok v) :
    validateUpdateName "first_name" p.first_name = .ok v.first_name ∧
    validateUpdateName "last_name" p.last_name = .ok v.last_name ∧
    validateUpdateEmail p.email = .ok v.email ∧
    validateUpdatePassword p.password = .ok v.password := by
  obtain ⟨a, b, c, d⟩ := v
  cases h1 : validateUpdateName "first_name" p.first_name <;>
  cases h2 : validateUpdateName "last_name" p.last_name <;>
  cases h3 : validateUpdateEmail p.email <;>
  cases h4 : validateUpdatePassword p.password <;>
  simp only [validateUserUpdate, h1, h2, h3, h4] at h <;>
  simp_all

/-- C10: an Update payload carrying an explicit null in `first_name`,
`last_name` or `password` passes the declared type check, and the field
validator then raises on the null value an exception that is not a
`ValueError` (here `isValueError = false` means `AttributeError` or
`TypeError`, the only other kinds); the whole validation therefore ends
in an uncaught exception — neither a 422 validation error nor an
accepted value treating the field as leave-unchanged. -/
theorem c10_null_field_escapes_validation (p : UpdatePayloadJson)
    (h : p.first_name = some none ∨ p.last_name = some none ∨ p.password = some none) :
    ∃ exc, exc.isValueError = false ∧ validateUserUpdate p = .uncaught exc := by
  cases h1 : validateUpdateName "first_name" p.first_name <;>
  cases h2 : validateUpdateName "last_name" p.last_name <;>
  cases h3 : validateUpdateEmail p.email <;>
  cases h4 : validateUpdatePassword p.password <;>
  first
  | exact ⟨_, validateUpdateName_raised_not_valueError _ _ _ h1,
      by simp only [validateUserUpdate, h1, h2, h3, h4]⟩
  | exact ⟨_, validateUpdateName_raised_not_valueError _ _ _ h2,
      by simp only [validateUserUpdate, h1, h2, h3, h4]⟩
  | exact absurd h3 (validateUpdateEmail_not_raised _ _)
  | exact ⟨_, validateUpdatePassword_raised_not_valueError _ _ h4,
      by simp only [validateUserUpdate, h1, h2, h3, h4]⟩
  | (rcases h with h | h | h <;>
      simp_all [validateUpdateName, validateUpdatePassword])

/-- C10 witness: a payload with valid names and email but an explicit
null password reaches the password validator and escapes with a
non-`ValueError` exception. -/
theorem c10_null_field_escapes_validation_witness :
    ((⟨some (some "Ada"), some (some "Lovelace"), some (some "ada@example.com"),
        some none⟩ : UpdatePayloadJson).first_name = some none ∨
     (⟨some (some "Ada"), some (some "Lovelace"), some (some "ada@example.com"),
        some none⟩ : UpdatePayloadJson).last_name = some none ∨
     (⟨some (some "Ada"), some (some "Lovelace"), some (some "ada@example.com"),
        some none⟩ : UpdatePayloadJson).password = some none) ∧
    ∃ exc, exc.isValueError = false ∧
      validateUserUpdate ⟨some (some "Ada"), some (some "Lovelace"),
        some (some "ada@example.com"), some none⟩ = .uncaught exc := by
  refine ⟨Or.inr (Or.inr rfl), c10_null_field_escapes_validation _ (Or.inr (Or.inr rfl))⟩

/-- C1 counterexample: an Update payload omitting `first_name` (all
other fields present and valid) is not accepted by validation — the
`UserUpdate` fields are declared without defaults, so the missing key
is reported as an aggregated validation error rather than meaning
leave-unchanged. -/
theorem c1_absent_field_rejected_counterexample :
    validateUserUpdate
        ⟨none, some (some "Lovelace"), some (some "ada@example.com"), some (some "Passw0rd")⟩
      = .validationError ["first_name"] := by
  rfl

/-- C1 amended: a payload with any absent field is rejected by
validation (never accepted as a `UserUpdate` value); for a payload the
handler does receive, the update handler applies exactly the truthy
fields — a falsy field leaves the stored value (for the password, both
credential fields) unchanged, a truthy field overwrites it (the
password through `set_password`) — and a successful update responds
with the projection of the fetched record with exactly those fields
applied and `updated_at` refreshed. -/
theorem c1_update_applies_only_truthy_present_fields (p : UpdatePayloadJson)
    (uu : UserUpdate) (user : UserRecord) (nonce uid : Nat) (db : Db)
    (fault : StorageFault) :
    ((p.first_name = none ∨ p.last_name = none ∨ p.email = none ∨ p.password = none) →
      ∀ v, validateUserUpdate p ≠ ValidationResult.ok v) ∧
    (pyTruthy uu.first_name = false →
      (applyUpdate uu user nonce).first_name = user.first_name) ∧
    (pyTruthy uu.last_name = false →
      (applyUpdate uu user nonce).last_name = user.last_name) ∧
    (pyTruthy uu.email = false → (applyUpdate uu user nonce).email = user.email) ∧
    (pyTruthy uu.password = false →
      (applyUpdate uu user nonce).salt = user.salt ∧
      (applyUpdate uu user nonce).password = user.password) ∧
    (∀ s, uu.first_name = some s → s ≠ "" → (applyUpdate uu user nonce).first_name = s) ∧
    (∀ s, uu.last_name = some s → s ≠ "" → (applyUpdate uu user nonce).last_name = s) ∧
    (∀ s, uu.email = some s → s ≠ "" → (applyUpdate uu user nonce).email = s) ∧
    (∀ s, uu.password = some s → s ≠ "" →
      (applyUpdate uu user nonce).password = bcrypt_hashpw s (bcrypt_gensalt nonce)) ∧
    (∀ c b db2, update_user uid uu db nonce fault = (.ok (c, b), db2) →
      ∃ u, findUser db uid = some u ∧
        b = userRead { applyUpdate uu u nonce with updated_at := some db.now }) := by
  refine ⟨?_, ?_, ?_, ?_, ?_, ?_, ?_, ?_, ?_, ?_⟩
  · intro h v heq
    obtain ⟨h1, h2, h3, h4⟩ := validateUserUpdate_ok_fields p v heq
    rcases h with h | h | h | h <;>
      simp_all [validateUpdateName, validateUpdateEmail, validateUpdatePassword]
  · intro h
    cases hE : pyTruthy uu.email <;> cases hL : pyTruthy uu.last_name <;>
      cases hP : pyTruthy uu.password <;> simp [applyUpdate, set_password, h, hE, hL, hP]
  · intro h
    cases hE : pyTruthy uu.email <;> cases hF : pyTruthy uu.first_name <;>
      cases hP : pyTruthy uu.password <;> simp [applyUpdate, set_password, h, hE, hF, hP]
  · intro h
    cases hF : pyTruthy uu.first_name <;> cases hL : pyTruthy uu.last_name <;>
      cases hP : pyTruthy uu.password <;> simp [applyUpdate, set_password, h, hF, hL, hP]
  · intro h
    cases hE : pyTruthy uu.email <;> cases hF : pyTruthy uu.first_name <;>
      cases hL : pyTruthy uu.last_name <;> simp [applyUpdate, set_password, h, hE, hF, hL]
  · intro s hs hns
    have ht : pyTruthy (some s) = true := by simp [pyTruthy, hns]
    cases hE : pyTruthy uu.email <;> cases hL : pyTruthy uu.last_name <;>
      cases hP : pyTruthy uu.password <;>
      simp [applyUpdate, set_password, ht, hs, hE, hL, hP]
  · intro s hs hns
    have ht : pyTruthy (some s) = true := by simp [pyTruthy, hns]
    cases hE : pyTruthy uu.email <;> cases hF : pyTruthy uu.first_name <;>
      cases hP : pyTruthy uu.password <;>
      simp [applyUpdate, set_password, ht, hs, hE, hF, hP]
  · intro s hs hns
    have ht : pyTruthy (some s) = true := by simp [pyTruthy, hns]
    cases hF : pyTruthy uu.first_name <;> cases hL : pyTruthy uu.last_name <;>
      cases hP : pyTruthy uu.password <;>
      simp [applyUpdate, set_password, ht, hs, hF, hL, hP]
  · intro s hs hns
    have ht : pyTruthy (some s) = true := by simp [pyTruthy, hns]
    cases hE : pyTruthy uu.email <;> cases hF : pyTruthy uu.first_name <;>
      cases hL : pyTruthy uu.last_name <;>
      simp [applyUpdate, set_password, ht, hs, hE, hF, hL]
  · intro c b db2 heq
    cases hf : findUser db uid with
    | none => simp [update_user, hf] at heq
    | some u =>
      refine ⟨u, rfl, ?_⟩
      simp only [update_user, hf] at heq
      by_cases hdup : (db.users.any fun v =>
          v.id != u.id && v.email == (applyUpdate uu u nonce).email) = true
      · simp [hdup] at heq
      · simp only [hdup, Bool.false_eq_true, if_false] at heq
        cases fault with
        | otherError msg => simp at heq
        | noFault =>
          simp only [Prod.mk.injEq, Except.ok.injEq] at heq
          exact heq.1.2.symm

/-- The record `sampleUser` becomes when an update renames only its
first name to Grace (clock tick 1, salt nonce 3). -/
def sampleRenamedUser : UserRecord :=
  { applyUpdate ⟨some "Grace", none, none, none⟩ sampleUser 3 with updated_at := some 1 }

/-- C1 witness: instantiation on a payload replacing only the first
name of `sampleUser`: the first name is applied, every other stored
field is retained, and the handler responds with the projection of the
record so updated; the rejection clause is instantiated on the
counterexample payload with `first_name` absent. -/
theorem c1_update_applies_only_truthy_present_fields_witness :
    validateUserUpdate
        ⟨none, some (some "Lovelace"), some (some "ada@example.com"), some (some "Passw0rd")⟩
      ≠ .ok ⟨none, none, none, none⟩ ∧
    (applyUpdate ⟨some "Grace", none, none, none⟩ sampleUser 3).first_name = "Grace" ∧
    (applyUpdate ⟨some "Grace", none, none, none⟩ sampleUser 3).last_name
      = sampleUser.last_name ∧
    (applyUpdate ⟨some "Grace", none, none, none⟩ sampleUser 3).email = sampleUser.email ∧
    (applyUpdate ⟨some "Grace", none, none, none⟩ sampleUser 3).salt = sampleUser.salt ∧
    (applyUpdate ⟨some "Grace", none, none, none⟩ sampleUser 3).password
      = sampleUser.password ∧
    ∃ u, findUser sampleDb 1 = some u ∧
      userRead sampleRenamedUser
        = userRead { applyUpdate ⟨some "Grace", none, none, none⟩ u 3 with
            updated_at := some sampleDb.now } := by
  have hmain := c1_update_applies_only_truthy_present_fields
    ⟨none, some (some "Lovelace"), some (some "ada@example.com"), some (some "Passw0rd")⟩
    ⟨some "Grace", none, none, none⟩ sampleUser 3 1 sampleDb .noFault
  have hne : ("Grace" : String) ≠ "" := by decide
  have heq : update_user 1 ⟨some "Grace", none, none, none⟩ sampleDb 3 .noFault
      = (.ok (200, userRead sampleRenamedUser),
         { sampleDb with users := replaceById sampleDb.users sampleRenamedUser }) := rfl
  exact ⟨hmain.1 (Or.inl rfl) ⟨none, none, none, none⟩,
    hmain.2.2.2.2.2.1 "Grace" rfl hne,
    hmain.2.2.1 rfl,
    hmain.2.2.2.1 rfl,
    (hmain.2.2.2.2.1 rfl).1,
    (hmain.2.2.2.2.1 rfl).2,
    hmain.2.2.2.2.2.2.2.2.2 200 _ _ heq⟩

end UserService
